import Mathlib

/-!
Verification of the mask-driven spreadsheet fill updater
(`hw10/apply_review_allocation_cf.py`).

The script reads a CSV mask grid and an xlsx workbook, and for every cell of
the selected sheet either recolors it from a fixed text→color table (when the
aligned mask value is "1") or clears its fill.  We embed the value model
(Python scalars as seen through `pandas`), the per-cell fill logic, the whole
sheet pass, the path / backup computations of the save step, and the
process-level control flow over an abstract file system.
-/

namespace ReviewAlloc

/-- A Python scalar value as it can appear in a pandas cell or an openpyxl
cell: `None`, a string, an integer, or the float NaN used for missing data. -/
inductive PyVal where
  | none : PyVal
  | str (s : String) : PyVal
  | int (n : Int) : PyVal
  | nan : PyVal
  deriving DecidableEq, Repr

/-- Python's `str()` on the values of `PyVal`. -/
def pyStr : PyVal → String
  | PyVal.none => "None"
  | PyVal.str s => s
  | PyVal.int n => toString n
  | PyVal.nan => "nan"

/-- The characters Python's `str.strip()` removes. -/
def isPySpace (ch : Char) : Bool :=
  ch = ' ' || ch = '\t' || ch = '\n' || ch = '\x0d' || ch = '\x0b' || ch = '\x0c'

/-- Python's `str.strip()`: drop leading and trailing whitespace. -/
def pyStrip (s : String) : String :=
  ⟨((s.data.dropWhile isPySpace).reverse.dropWhile isPySpace).reverse⟩

/-- Python's `str.lower()` (ASCII case folding suffices for the values used):
lower-case every character. -/
def pyLower (s : String) : String := ⟨s.data.map Char.toLower⟩

/-- `pandas.isna` on the embedded values: true for `None` and NaN. -/
def pd_isna : PyVal → Bool
  | PyVal.none => true
  | PyVal.nan => true
  | _ => false

/-- `is_one` from the script: false on missing values, otherwise test whether
the stripped string form equals `"1"`. -/
def is_one (v : PyVal) : Bool :=
  if pd_isna v then false
  else pyStrip (pyStr v) == "1"

/-- A cell fill: either no background or a solid ARGB color. -/
inductive Fill where
  | noFill : Fill
  | solid (fgColor : String) : Fill
  deriving DecidableEq, Repr

/-- `empty_fill = PatternFill()`: the cleared, no-background fill. -/
def empty_fill : Fill := Fill.noFill

/-- The script's `color_map` dict: workbook cell text → ARGB fill color. -/
def color_map : List (String × String) :=
  [("yes", "FFC6EFCE"), ("no", "FFFFC7CE"), ("maybe", "FFFFEB9C"), ("conflict", "FFD9D9D9")]

/-- `if s in color_map: return PatternFill(fill_type='solid', fgColor=color_map[s])`,
else `empty_fill`. -/
def lookupFill (s : String) : Fill :=
  match color_map.lookup s with
  | Option.some c => Fill.solid c
  | Option.none => empty_fill

/-- `pick_fill_for_cell_value`: `None` keeps no fill; otherwise normalize the
string form (strip, lower) and look it up in `color_map`. -/
def pick_fill_for_cell_value (v : PyVal) : Fill :=
  match v with
  | PyVal.none => empty_fill
  | _ => lookupFill (pyLower (pyStrip (pyStr v)))

/-- A spreadsheet cell: its value, its fill, and a stand-in for every other
piece of per-cell formatting (number format, font, border, ...), which the
script never touches. -/
structure Cell where
  value : PyVal
  fill : Fill
  style : String
  deriving DecidableEq, Repr

/-- The blank cell openpyxl materializes for coordinates inside the sheet
bounds that have no stored content: value `None`, no fill. -/
def blankCell : Cell := ⟨PyVal.none, Fill.noFill, ""⟩

/-- A worksheet: its used-range bounds `max_row`/`max_column`, its cell grid
(row-major, possibly sparse), and its list of conditional-formatting rules. -/
structure Sheet where
  maxRow : Nat
  maxCol : Nat
  cells : List (List Cell)
  cf : List String
  deriving DecidableEq, Repr

/-- An empty worksheet. -/
def emptySheet : Sheet := ⟨0, 0, [], []⟩

/-- `ws.cell(row=r, column=c)` for 1-based `r`, `c`. -/
def cellAt (s : Sheet) (r c : Nat) : Cell :=
  (s.cells.getD (r - 1) []).getD (c - 1) blankCell

/-- The value of cell `(r, c)`. -/
def valueAt (s : Sheet) (r c : Nat) : PyVal := (cellAt s r c).value

/-- The fill of cell `(r, c)`. -/
def fillAt (s : Sheet) (r c : Nat) : Fill := (cellAt s r c).fill

/-- Column count of the parsed mask DataFrame (pandas pads ragged rows, so
the shape's column count is the widest row). -/
def maskCols (g : List (List PyVal)) : Nat :=
  g.foldr (fun row m => max row.length m) 0

/-- The mask value at 0-based `(i, j)`; positions pandas padded are NaN. -/
def maskAt (g : List (List PyVal)) (i j : Nat) : PyVal :=
  (g.getD i []).getD j PyVal.nan

/-- The `keep` flag the loop computes for sheet cell `(r, c)` (1-based): map
to mask index `(r-1, (c-1)+offset)`, require it inside the mask shape, and
test `is_one` there. -/
def cellKeep (g : List (List PyVal)) (offset : Int) (r c : Nat) : Bool :=
  if ((r : Int) - 1) < (g.length : Int)
      ∧ (((c : Int) - 1) + offset) < (maskCols g : Int)
      ∧ 0 ≤ ((c : Int) - 1) + offset then
    is_one (maskAt g ((r : Int) - 1).toNat (((c : Int) - 1) + offset).toNat)
  else false

/-- The loop body for one cell: recolor from the cell's own value when the
mask says keep, otherwise clear the fill. -/
def updateCell (g : List (List PyVal)) (offset : Int) (r c : Nat) (cell : Cell) : Cell :=
  if cellKeep g offset r c then { cell with fill := pick_fill_for_cell_value cell.value }
  else { cell with fill := empty_fill }

/-- The double loop over `r ∈ [1, max_row]`, `c ∈ [1, max_column]`. -/
def applyMask (g : List (List PyVal)) (offset : Int) (s : Sheet) : Sheet :=
  { s with cells :=
      (List.range s.maxRow).map fun i =>
        (List.range s.maxCol).map fun j =>
          updateCell g offset (i + 1) (j + 1) (cellAt s (i + 1) (j + 1)) }

/-- `ws.conditional_formatting.clear()` wrapped in try/except: when it works
the rule list is emptied, when it raises the sheet is left as-is and the
failure is swallowed. -/
def clearCF (ok : Bool) (s : Sheet) : Sheet :=
  if ok then { s with cf := [] } else s

/-- The whole in-memory pass over one sheet: best-effort conditional
formatting removal, then the fill loop. -/
def processSheet (clearOk : Bool) (g : List (List PyVal)) (offset : Int) (s : Sheet) : Sheet :=
  applyMask g offset (clearCF clearOk s)

/-- The characters of `pathlib.Path(p).stem`: the name without its last
suffix; a name with no dot, or whose only dot is its first character, has no
suffix and is its own stem. -/
def stemChars (l : List Char) : List Char :=
  match l.reverse.dropWhile (fun ch => ch ≠ '.') with
  | [] => l
  | [_] => l
  | _ :: rest => rest.reverse

/-- `pathlib.Path(p).stem` on flat file names. -/
def pathStem (p : String) : String := ⟨stemChars p.data⟩

/-- `pathlib.Path(p).with_suffix(suf)`: replace the last suffix by `suf`. -/
def withSuffix (p suf : String) : String := ⟨stemChars p.data ++ suf.data⟩

/-- File contents, at the granularity the script observes them: a workbook,
a parsable CSV grid, or opaque bytes. -/
inductive Content where
  | wb (sheets : List Sheet) : Content
  | csv (grid : List (List PyVal)) : Content
  | blob (n : Nat) : Content
  deriving DecidableEq, Repr

/-- The abstract file system: an association list from path to content where
the earliest entry for a path wins. -/
abbrev FS := List (String × Content)

/-- Read the file at `p`, if present. -/
def FS.read : FS → String → Option Content
  | [], _ => Option.none
  | e :: rest, p => if e.1 = p then Option.some e.2 else FS.read rest p

/-- Write content `v` at path `p` (shadowing any earlier entry). -/
def FS.write (fs : FS) (p : String) (v : Content) : FS := (p, v) :: fs

/-- The command-line arguments of `parse_args`. -/
structure Args where
  inputXlsx : String
  maskCsv : String
  sheetIndex : Int
  maskColOffset : Int
  outputXlsx : Option String
  backup : Bool
  fillColor : String
  deriving DecidableEq, Repr

/-- The ambient state a run executes against: the file system, whether
`conditional_formatting.clear()` succeeds, and the current Unix time used
for the timestamped backup name. -/
structure Env where
  fs : FS
  clearOk : Bool
  ts : Nat
  deriving DecidableEq, Repr

/-- A file-system side effect, in program order. -/
inductive FsOp where
  | copyFile (src dst : String) : FsOp
  | saveFile (path : String) : FsOp
  deriving DecidableEq, Repr

/-- The observable outcome of a run: either `sys.exit(code)` after an error
message with the file system untouched so far, or normal completion with the
final file system, the printed messages, and the write trace. -/
inductive RunResult where
  | err (code : Nat) (msg : String) (fs : FS) : RunResult
  | ok (fs : FS) (msgs : List String) (ops : List FsOp) : RunResult
  deriving DecidableEq, Repr

/-- The process exit status of an outcome. -/
def RunResult.exitCode : RunResult → Nat
  | RunResult.err code _ _ => code
  | RunResult.ok _ _ _ => 0

/-- The file system after the run. -/
def RunResult.filesystem : RunResult → FS
  | RunResult.err _ _ fs => fs
  | RunResult.ok fs _ _ => fs

/-- Everything the run printed. -/
def RunResult.messages : RunResult → List String
  | RunResult.err _ msg _ => [msg]
  | RunResult.ok _ msgs _ => msgs

/-- The file writes the run performed, in order. -/
def RunResult.opsOf : RunResult → List FsOp
  | RunResult.err _ _ _ => []
  | RunResult.ok _ _ ops => ops

/-- The backup path the save step uses: `<stem>.bak.xlsx`, or the
timestamp-suffixed `<stem>.bak.<ts>.xlsx` when that file already exists. -/
def backupPathFor (fs : FS) (input : String) (ts : Nat) : String :=
  let b0 := withSuffix input ".bak.xlsx"
  if (fs.read b0).isSome then pathStem input ++ ".bak." ++ toString ts ++ ".xlsx"
  else b0

/-- The workbook after the pass: the selected sheet replaced by its
processed form, all other sheets untouched. -/
def updatedWorkbook (sheets : List Sheet) (idx : Nat) (clearOk : Bool)
    (g : List (List PyVal)) (offset : Int) : List Sheet :=
  sheets.set idx (processSheet clearOk g offset (sheets.getD idx emptySheet))

/-- The dimension-mismatch warning lines printed when the mask is smaller
than the sheet's used range. -/
def warnMsgs (g : List (List PyVal)) (ws : Sheet) : List String :=
  if g.length < ws.maxRow ∨ maskCols g < ws.maxCol then
    ["Warning: mask CSV shape (" ++ toString g.length ++ "," ++ toString (maskCols g)
       ++ ") is smaller than sheet (" ++ toString ws.maxRow ++ "," ++ toString ws.maxCol ++ ").",
     "Only overlapping cells will be processed; non-overlapping cells will have fills cleared."]
  else []

/-- `main()`: existence checks, mask parse, workbook load, sheet-index
check, the sheet pass, and the save step with its backup protocol. -/
def runMain (env : Env) (args : Args) : RunResult :=
  match env.fs.read args.inputXlsx with
  | Option.none => RunResult.err 2 ("Error: input xlsx not found: " ++ args.inputXlsx) env.fs
  | Option.some inContent =>
    match env.fs.read args.maskCsv with
    | Option.none => RunResult.err 2 ("Error: mask csv not found: " ++ args.maskCsv) env.fs
    | Option.some maskContent =>
      match maskContent with
      | Content.wb _ => RunResult.err 2 "Error reading mask CSV" env.fs
      | Content.blob _ => RunResult.err 2 "Error reading mask CSV" env.fs
      | Content.csv g =>
        match inContent with
        | Content.csv _ => RunResult.err 1 "Traceback: input is not a workbook" env.fs
        | Content.blob _ => RunResult.err 1 "Traceback: input is not a workbook" env.fs
        | Content.wb sheets =>
          if args.sheetIndex < 0 ∨ (sheets.length : Int) ≤ args.sheetIndex then
            RunResult.err 2
              ("Invalid sheet index " ++ toString args.sheetIndex
                ++ "; workbook has " ++ toString sheets.length ++ " sheets") env.fs
          else
            let idx := args.sheetIndex.toNat
            let ws := sheets.getD idx emptySheet
            let warn := warnMsgs g ws
            let newWb := updatedWorkbook sheets idx env.clearOk g args.maskColOffset
            match args.outputXlsx with
            | Option.some out =>
              RunResult.ok (env.fs.write out (Content.wb newWb))
                (warn ++ ["Saved updated workbook to: " ++ out])
                [FsOp.saveFile out]
            | Option.none =>
              let bkp := backupPathFor env.fs args.inputXlsx env.ts
              let fs1 := env.fs.write bkp inContent
              let fs2 := fs1.write args.inputXlsx (Content.wb newWb)
              RunResult.ok fs2
                (warn ++ ["Overwrote " ++ args.inputXlsx ++ "; backup saved as " ++ bkp])
                [FsOp.copyFile args.inputXlsx bkp, FsOp.saveFile args.inputXlsx]

/-- Modelled from the spec's words for comparison with the source table:
`yes→light green, no→light red, maybe→light yellow, conflict→light grey`,
anything else → no fill. -/
def specFill (s : String) : Fill :=
  if s = "yes" then Fill.solid "FFC6EFCE"
  else if s = "no" then Fill.solid "FFFFC7CE"
  else if s = "maybe" then Fill.solid "FFFFEB9C"
  else if s = "conflict" then Fill.solid "FFD9D9D9"
  else Fill.noFill

/-- A plain text cell with no fill. -/
def mkTextCell (t : String) : Cell := ⟨PyVal.str t, Fill.noFill, ""⟩

/-- Mask grid of the spec's first worked example. -/
def exampleMask1 : List (List PyVal) :=
  [[PyVal.str "1", PyVal.str "0"], [PyVal.str "x", PyVal.str "1"]]

/-- Sheet of the spec's first worked example. -/
def exampleSheet1 : Sheet :=
  ⟨2, 2, [[mkTextCell "Yes", mkTextCell "No"], [mkTextCell "Maybe", mkTextCell "conflict"]], []⟩

/-- Mask grid of the spec's second worked example. -/
def exampleMask2 : List (List PyVal) := [[PyVal.str "0", PyVal.str "1"]]

/-- Sheet of the spec's second worked example. -/
def exampleSheet2 : Sheet := ⟨1, 2, [[mkTextCell "Yes", mkTextCell "No"]], []⟩

lemma lookupFill_eq_specFill (s : String) : lookupFill s = specFill s := by
  by_cases h1 : s = "yes"
  · subst h1; decide
  by_cases h2 : s = "no"
  · subst h2; decide
  by_cases h3 : s = "maybe"
  · subst h3; decide
  by_cases h4 : s = "conflict"
  · subst h4; decide
  have e1 : (s == "yes") = false := beq_eq_false_iff_ne.mpr h1
  have e2 : (s == "no") = false := beq_eq_false_iff_ne.mpr h2
  have e3 : (s == "maybe") = false := beq_eq_false_iff_ne.mpr h3
  have e4 : (s == "conflict") = false := beq_eq_false_iff_ne.mpr h4
  simp [lookupFill, color_map, specFill, List.lookup, e1, e2, e3, e4, h1, h2, h3, h4, empty_fill]

lemma pick_fill_eq_spec (v : PyVal) :
    pick_fill_for_cell_value v =
      if v = PyVal.none then Fill.noFill else specFill (pyLower (pyStrip (pyStr v))) := by
  cases v <;> simp [pick_fill_for_cell_value, empty_fill, lookupFill_eq_specFill]

lemma cellAt_clearCF (ok : Bool) (s : Sheet) (r c : Nat) :
    cellAt (clearCF ok s) r c = cellAt s r c := by
  cases ok <;> rfl

lemma cellAt_applyMask (g : List (List PyVal)) (off : Int) (s : Sheet) (r c : Nat)
    (h1 : 1 ≤ r) (h2 : r ≤ s.maxRow) (h3 : 1 ≤ c) (h4 : c ≤ s.maxCol) :
    cellAt (applyMask g off s) r c = updateCell g off r c (cellAt s r c) := by
  have hr : r - 1 < s.maxRow := by omega
  have hc : c - 1 < s.maxCol := by omega
  have hr1 : r - 1 + 1 = r := by omega
  have hc1 : c - 1 + 1 = c := by omega
  simp only [cellAt, applyMask, List.getD_eq_getElem?_getD, List.getElem?_map,
    List.getElem?_range hr, List.getElem?_range hc, Option.map_some', Option.getD_some,
    hr1, hc1]

lemma fillAt_applyMask (g : List (List PyVal)) (off : Int) (s : Sheet) (r c : Nat) :
    fillAt (applyMask g off s) r c =
      if r - 1 < s.maxRow ∧ c - 1 < s.maxCol then
        (if cellKeep g off (r - 1 + 1) (c - 1 + 1)
          then pick_fill_for_cell_value (valueAt s (r - 1 + 1) (c - 1 + 1))
          else Fill.noFill)
      else Fill.noFill := by
  by_cases hb : r - 1 < s.maxRow ∧ c - 1 < s.maxCol
  · rw [if_pos hb]
    have e1 : cellAt (applyMask g off s) (r - 1 + 1) (c - 1 + 1) = cellAt (applyMask g off s) r c := by
      simp [cellAt, Nat.add_sub_cancel]
    unfold fillAt
    rw [← e1,
      cellAt_applyMask g off s (r - 1 + 1) (c - 1 + 1) (by omega) (by omega) (by omega) (by omega)]
    unfold updateCell
    split <;> rfl
  · rw [if_neg hb]
    rcases Nat.lt_or_ge (r - 1) s.maxRow with hr | hr
    · have hc : s.maxCol ≤ c - 1 := by
        rcases Nat.lt_or_ge (c - 1) s.maxCol with hc2 | hc2
        · exact absurd ⟨hr, hc2⟩ hb
        · exact hc2
      simp only [fillAt, cellAt, applyMask, List.getD_eq_getElem?_getD, List.getElem?_map,
        List.getElem?_range hr, Option.map_some', Option.getD_some,
        List.getElem?_eq_none (show (List.range s.maxCol).length ≤ c - 1 from by simpa using hc),
        Option.map_none', Option.getD_none]
      rfl
    · simp only [fillAt, cellAt, applyMask, List.getD_eq_getElem?_getD, List.getElem?_map,
        List.getElem?_eq_none (show (List.range s.maxRow).length ≤ r - 1 from by simpa using hr),
        Option.map_none', Option.getD_none]
      rfl

lemma sheetExt (a b : Sheet) (h1 : a.maxRow = b.maxRow) (h2 : a.maxCol = b.maxCol)
    (h3 : a.cells = b.cells) (h4 : a.cf = b.cf) : a = b := by
  cases a; cases b; simp_all

lemma updateCell_value (g : List (List PyVal)) (off : Int) (r c : Nat) (cell : Cell) :
    (updateCell g off r c cell).value = cell.value := by
  unfold updateCell; split <;> rfl

lemma updateCell_style (g : List (List PyVal)) (off : Int) (r c : Nat) (cell : Cell) :
    (updateCell g off r c cell).style = cell.style := by
  unfold updateCell; split <;> rfl

lemma updateCell_idem (g : List (List PyVal)) (off : Int) (r c : Nat) (cell : Cell) :
    updateCell g off r c (updateCell g off r c cell) = updateCell g off r c cell := by
  unfold updateCell; split <;> simp

lemma applyMask_idem (g : List (List PyVal)) (off : Int) (s : Sheet) :
    applyMask g off (applyMask g off s) = applyMask g off s := by
  refine sheetExt _ _ rfl rfl ?_ rfl
  show (List.range s.maxRow).map _ = (List.range s.maxRow).map _
  apply List.map_congr_left
  intro i hi
  apply List.map_congr_left
  intro j hj
  rw [cellAt_applyMask g off s (i + 1) (j + 1) (by omega)
      (by simpa using List.mem_range.mp hi) (by omega) (by simpa using List.mem_range.mp hj),
    updateCell_idem]

lemma clearCF_idem (ok : Bool) (s : Sheet) : clearCF ok (clearCF ok s) = clearCF ok s := by
  cases ok <;> rfl

lemma clearCF_applyMask_comm (ok : Bool) (g : List (List PyVal)) (off : Int) (s : Sheet) :
    clearCF ok (applyMask g off s) = applyMask g off (clearCF ok s) := by
  cases ok <;> rfl

lemma processSheet_idem (ok : Bool) (g : List (List PyVal)) (off : Int) (s : Sheet) :
    processSheet ok g off (processSheet ok g off s) = processSheet ok g off s := by
  unfold processSheet
  rw [clearCF_applyMask_comm, clearCF_idem, applyMask_idem]

lemma valueAt_congr (s₁ s₂ : Sheet)
    (h : s₁.cells.map (List.map Cell.value) = s₂.cells.map (List.map Cell.value))
    (r c : Nat) : valueAt s₁ r c = valueAt s₂ r c := by
  have h2 : (s₁.cells[r - 1]?).map (List.map Cell.value)
      = (s₂.cells[r - 1]?).map (List.map Cell.value) := by
    rw [← List.getElem?_map, ← List.getElem?_map, h]
  unfold valueAt cellAt
  simp only [List.getD_eq_getElem?_getD]
  cases e1 : s₁.cells[r - 1]? with
  | none =>
    cases e2 : s₂.cells[r - 1]? with
    | none => rfl
    | some row2 => rw [e1, e2] at h2; exact absurd h2 (by simp)
  | some row1 =>
    cases e2 : s₂.cells[r - 1]? with
    | none => rw [e1, e2] at h2; exact absurd h2 (by simp)
    | some row2 =>
      rw [e1, e2] at h2
      simp only [Option.map_some', Option.some.injEq] at h2
      have h3 : (row1[c - 1]?).map Cell.value = (row2[c - 1]?).map Cell.value := by
        rw [← List.getElem?_map, ← List.getElem?_map, h2]
      simp only [Option.getD_some]
      cases f1 : row1[c - 1]? with
      | none =>
        cases f2 : row2[c - 1]? with
        | none => rfl
        | some cell2 => rw [f1, f2] at h3; exact absurd h3 (by simp)
      | some cell1 =>
        cases f2 : row2[c - 1]? with
        | none => rw [f1, f2] at h3; exact absurd h3 (by simp)
        | some cell2 =>
          rw [f1, f2] at h3
          simp only [Option.map_some', Option.some.injEq] at h3
          simpa using h3

lemma stemChars_of_bak (st : List Char) :
    stemChars (st ++ ('.' :: 'b' :: 'a' :: 'k' :: '.' :: 'x' :: 'l' :: 's' :: 'x' ::[]))
      = st ++ ('.' :: 'b' :: 'a' :: 'k' ::[]) := by
  unfold stemChars
  rw [List.reverse_append]
  have h1 : ('.' :: 'b' :: 'a' :: 'k' :: '.' :: 'x' :: 'l' :: 's' :: 'x' ::[] : List Char).reverse
      = 'x' :: 's' :: 'l' :: 'x' :: '.' :: 'k' :: 'a' :: 'b' :: '.' ::[] := rfl
  rw [h1]
  simp [List.dropWhile]

lemma stemChars_of_xlsx (X : List Char) (hX : X ≠ []) :
    stemChars (X ++ ('.' :: 'x' :: 'l' :: 's' :: 'x' ::[])) = X := by
  unfold stemChars
  rw [List.reverse_append]
  have h1 : ('.' :: 'x' :: 'l' :: 's' :: 'x' ::[] : List Char).reverse
      = 'x' :: 's' :: 'l' :: 'x' :: '.' ::[] := rfl
  rw [h1]
  cases hXr : X.reverse with
  | nil => exact absurd (by simpa using hXr) hX
  | cons a as =>
    simp [List.dropWhile, hXr]
    have h2 : X = (a :: as).reverse := by rw [← hXr, List.reverse_reverse]
    simp [h2]

lemma withSuffix_bak_ne (p : String) : withSuffix p ".bak.xlsx" ≠ p := by
  intro h
  have hd : stemChars p.data ++ ('.' :: 'b' :: 'a' :: 'k' :: '.' :: 'x' :: 'l' :: 's' :: 'x' ::[]) = p.data :=
    congrArg String.data h
  have hs : stemChars p.data = stemChars p.data ++ ('.' :: 'b' :: 'a' :: 'k' ::[]) := by
    conv_lhs => rw [← hd]
    rw [stemChars_of_bak]
  have hlen := congrArg List.length hs
  simp [List.length_append] at hlen

lemma ts_ne_input (p : String) (ts : Nat) :
    pathStem p ++ ".bak." ++ toString ts ++ ".xlsx" ≠ p := by
  intro h
  have hd : (stemChars p.data ++ ('.' :: 'b' :: 'a' :: 'k' :: '.' ::(toString ts).data))
      ++ ('.' :: 'x' :: 'l' :: 's' :: 'x' ::[]) = p.data := by
    have h2 := congrArg String.data h
    simp only [String.data_append, pathStem] at h2
    simpa [List.append_assoc] using h2
  have hne : stemChars p.data ++ ('.' :: 'b' :: 'a' :: 'k' :: '.' ::(toString ts).data) ≠ [] := by
    simp
  have hs : stemChars p.data
      = stemChars p.data ++ ('.' :: 'b' :: 'a' :: 'k' :: '.' ::(toString ts).data) := by
    conv_lhs => rw [← hd]
    rw [stemChars_of_xlsx _ hne]
  have hlen := congrArg List.length hs
  simp [List.length_append] at hlen

lemma ts_ne_default (p : String) (ts : Nat) :
    pathStem p ++ ".bak." ++ toString ts ++ ".xlsx" ≠ withSuffix p ".bak.xlsx" := by
  intro h
  have hd := congrArg String.data h
  have hlen := congrArg List.length hd
  simp [String.data_append, List.length_append, pathStem, withSuffix] at hlen

lemma backupPathFor_ne_input (fs : FS) (p : String) (ts : Nat) :
    backupPathFor fs p ts ≠ p := by
  unfold backupPathFor
  simp only []
  split
  · exact ts_ne_input p ts
  · exact withSuffix_bak_ne p

lemma FS.read_write_self (fs : FS) (p : String) (v : Content) :
    (fs.write p v).read p = Option.some v := by
  simp [FS.read, FS.write]

lemma FS.read_write_ne (fs : FS) (p q : String) (v : Content) (h : p ≠ q) :
    (fs.write p v).read q = fs.read q := by
  simp [FS.read, FS.write, h]

lemma runMain_ok (env : Env) (args : Args) (sheets : List Sheet) (g : List (List PyVal))
    (hin : env.fs.read args.inputXlsx = Option.some (Content.wb sheets))
    (hmask : env.fs.read args.maskCsv = Option.some (Content.csv g))
    (hidx : ¬(args.sheetIndex < 0 ∨ (sheets.length : Int) ≤ args.sheetIndex)) :
    runMain env args =
      match args.outputXlsx with
      | Option.some out =>
        RunResult.ok
          (env.fs.write out (Content.wb
            (updatedWorkbook sheets args.sheetIndex.toNat env.clearOk g args.maskColOffset)))
          (warnMsgs g (sheets.getD args.sheetIndex.toNat emptySheet)
            ++ ["Saved updated workbook to: " ++ out])
          [FsOp.saveFile out]
      | Option.none =>
        RunResult.ok
          ((env.fs.write (backupPathFor env.fs args.inputXlsx env.ts) (Content.wb sheets)).write
            args.inputXlsx (Content.wb
              (updatedWorkbook sheets args.sheetIndex.toNat env.clearOk g args.maskColOffset)))
          (warnMsgs g (sheets.getD args.sheetIndex.toNat emptySheet)
            ++ ["Overwrote " ++ args.inputXlsx ++ "; backup saved as "
                  ++ backupPathFor env.fs args.inputXlsx env.ts])
          [FsOp.copyFile args.inputXlsx (backupPathFor env.fs args.inputXlsx env.ts),
           FsOp.saveFile args.inputXlsx] := by
  unfold runMain
  rw [hin, hmask]
  simp only []
  rw [if_neg hidx]

/-- Claim C1: for every mask value `v`, `is_one v` is true exactly when the
string form of `v`, stripped of surrounding whitespace, equals `"1"`; in
particular numeric `1`, `"1"`, and `" 1 "` are one, while `"1.0"`, the empty
string, NaN and `None` are not. -/
theorem claim1_is_one_iff_trimmed_string_one :
    (∀ v : PyVal, is_one v = true ↔ pyStrip (pyStr v) = "1")
    ∧ is_one (PyVal.int 1) = true
    ∧ is_one (PyVal.str "1") = true
    ∧ is_one (PyVal.str " 1 ") = true
    ∧ is_one (PyVal.str "1.0") = false
    ∧ is_one (PyVal.str "") = false
    ∧ is_one PyVal.nan = false
    ∧ is_one PyVal.none = false := by
  refine ⟨fun v => ?_, by decide, by decide, by decide, by decide, by decide, by decide, by decide⟩
  cases v with
  | none => decide
  | nan => decide
  | str s => simp [is_one, pd_isna, pyStr, beq_iff_eq]
  | int n => simp [is_one, pd_isna, pyStr, beq_iff_eq]

/-- Claim C2: for a cell whose mapped mask value is one, the resulting fill is
a function only of the cell's own text, picked by `pick_fill_for_cell_value`;
and that function is exactly the fixed table on the trimmed, lower-cased text
(yes→FFC6EFCE, no→FFFFC7CE, maybe→FFFFEB9C, conflict→FFD9D9D9, anything else
or `None` → no fill). -/
theorem claim2_kept_cell_fill_from_own_text (g : List (List PyVal)) (off : Int)
    (s : Sheet) (r c : Nat) (v : PyVal)
    (h1 : 1 ≤ r) (h2 : r ≤ s.maxRow) (h3 : 1 ≤ c) (h4 : c ≤ s.maxCol)
    (hk : cellKeep g off r c = true) :
    fillAt (applyMask g off s) r c = pick_fill_for_cell_value (valueAt s r c)
    ∧ pick_fill_for_cell_value v
        = (if v = PyVal.none then Fill.noFill else specFill (pyLower (pyStrip (pyStr v)))) := by
  constructor
  · unfold fillAt
    rw [cellAt_applyMask g off s r c h1 h2 h3 h4]
    simp [updateCell, hk, valueAt]
  · exact pick_fill_eq_spec v

/-- Witness for C2 at the spec's first example: cell (1,1), mask value "1". -/
theorem claim2_witness :
    fillAt (applyMask exampleMask1 0 exampleSheet1) 1 1
        = pick_fill_for_cell_value (valueAt exampleSheet1 1 1)
    ∧ pick_fill_for_cell_value (PyVal.str " Yes ")
        = (if PyVal.str " Yes " = PyVal.none then Fill.noFill
            else specFill (pyLower (pyStrip (pyStr (PyVal.str " Yes "))))) :=
  claim2_kept_cell_fill_from_own_text exampleMask1 0 exampleSheet1 1 1 (PyVal.str " Yes ")
    (by decide) (by decide) (by decide) (by decide) (by decide)

/-- Claim C3: a sheet cell whose mask index `(r-1, (c-1)+offset)` is out of
the mask grid's bounds, or whose mask value is not one, ends with no fill,
whatever its prior fill or text. -/
theorem claim3_cleared_when_not_kept (g : List (List PyVal)) (off : Int)
    (s : Sheet) (r c : Nat)
    (h1 : 1 ≤ r) (h2 : r ≤ s.maxRow) (h3 : 1 ≤ c) (h4 : c ≤ s.maxCol)
    (h5 : (g.length : Int) ≤ (r : Int) - 1
        ∨ (maskCols g : Int) ≤ ((c : Int) - 1) + off
        ∨ ((c : Int) - 1) + off < 0
        ∨ is_one (maskAt g (r - 1) (((c : Int) - 1) + off).toNat) = false) :
    fillAt (applyMask g off s) r c = Fill.noFill := by
  have hk : cellKeep g off r c = false := by
    unfold cellKeep
    split
    case isTrue hcond =>
      rcases h5 with h | h | h | h
      · exact absurd hcond.1 (by omega)
      · exact absurd hcond.2.1 (by omega)
      · exact absurd hcond.2.2 (by omega)
      · have e : ((r : Int) - 1).toNat = r - 1 := by omega
        rw [e]
        exact h
    case isFalse hcond => rfl
  unfold fillAt
  rw [cellAt_applyMask g off s r c h1 h2 h3 h4]
  simp [updateCell, hk, empty_fill]

/-- Witness for C3 at the spec's second example: cell (1,2) with offset 1
maps to mask column 2, which is out of bounds, so the fill is cleared. -/
theorem claim3_witness :
    fillAt (applyMask exampleMask2 1 exampleSheet2) 1 2 = Fill.noFill :=
  claim3_cleared_when_not_kept exampleMask2 1 exampleSheet2 1 2
    (by decide) (by decide) (by decide) (by decide) (Or.inr (Or.inl (by decide)))

/-- Sheet used to witness purity: same text as `pureSheetB`, but a colored
prior fill. -/
def pureSheetA : Sheet := ⟨1, 1, [[⟨PyVal.str "yes", Fill.solid "FF000000", ""⟩]], []⟩

/-- Sheet used to witness purity: same text as `pureSheetA`, no prior fill. -/
def pureSheetB : Sheet := ⟨1, 1, [[⟨PyVal.str "yes", Fill.noFill, ""⟩]], []⟩

/-- Claim C4: the pass is idempotent (running it on its own output changes
nothing) and the computed fills depend only on the cell texts, the mask and
the offset, never on the fills present in the input. -/
theorem claim4_idempotent_and_fill_pure (ok : Bool) (g : List (List PyVal)) (off : Int)
    (s s₁ s₂ : Sheet) (r c : Nat)
    (hrow : s₁.maxRow = s₂.maxRow) (hcol : s₁.maxCol = s₂.maxCol)
    (hval : s₁.cells.map (List.map Cell.value) = s₂.cells.map (List.map Cell.value)) :
    processSheet ok g off (processSheet ok g off s) = processSheet ok g off s
    ∧ fillAt (applyMask g off s₁) r c = fillAt (applyMask g off s₂) r c := by
  refine ⟨processSheet_idem ok g off s, ?_⟩
  rw [fillAt_applyMask, fillAt_applyMask, hrow, hcol]
  by_cases hb : r - 1 < s₂.maxRow ∧ c - 1 < s₂.maxCol
  · rw [if_pos hb, if_pos hb, valueAt_congr s₁ s₂ hval]
  · rw [if_neg hb, if_neg hb]

/-- Witness for C4: a sheet with a colored prior fill and the same sheet with
no prior fill produce the same fill, and a second pass is a no-op. -/
theorem claim4_witness :
    processSheet true [[PyVal.str "1"]] 0 (processSheet true [[PyVal.str "1"]] 0 pureSheetA)
        = processSheet true [[PyVal.str "1"]] 0 pureSheetA
    ∧ fillAt (applyMask [[PyVal.str "1"]] 0 pureSheetA) 1 1
        = fillAt (applyMask [[PyVal.str "1"]] 0 pureSheetB) 1 1 :=
  claim4_idempotent_and_fill_pure true [[PyVal.str "1"]] 0 pureSheetA pureSheetA pureSheetB 1 1
    rfl rfl (by decide)

/-- Claim C5: the pass only touches fills and the conditional-formatting rule
set: the sheet bounds, every cell's value and every cell's non-fill
formatting are unchanged. -/
theorem claim5_frame_only_fills_and_cf (ok : Bool) (g : List (List PyVal)) (off : Int)
    (s : Sheet) (r c : Nat)
    (h1 : 1 ≤ r) (h2 : r ≤ s.maxRow) (h3 : 1 ≤ c) (h4 : c ≤ s.maxCol) :
    (processSheet ok g off s).maxRow = s.maxRow
    ∧ (processSheet ok g off s).maxCol = s.maxCol
    ∧ valueAt (processSheet ok g off s) r c = valueAt s r c
    ∧ (cellAt (processSheet ok g off s) r c).style = (cellAt s r c).style := by
  have hmr : (clearCF ok s).maxRow = s.maxRow := by cases ok <;> rfl
  have hmc : (clearCF ok s).maxCol = s.maxCol := by cases ok <;> rfl
  have hb2 : r ≤ (clearCF ok s).maxRow := by rw [hmr]; exact h2
  have hb4 : c ≤ (clearCF ok s).maxCol := by rw [hmc]; exact h4
  refine ⟨by cases ok <;> rfl, by cases ok <;> rfl, ?_, ?_⟩
  · unfold processSheet valueAt
    rw [cellAt_applyMask g off (clearCF ok s) r c h1 hb2 h3 hb4, updateCell_value,
      cellAt_clearCF]
  · unfold processSheet
    rw [cellAt_applyMask g off (clearCF ok s) r c h1 hb2 h3 hb4, updateCell_style,
      cellAt_clearCF]

/-- Witness for C5 at the spec's first example sheet. -/
theorem claim5_witness :
    (processSheet true exampleMask1 0 exampleSheet1).maxRow = exampleSheet1.maxRow
    ∧ (processSheet true exampleMask1 0 exampleSheet1).maxCol = exampleSheet1.maxCol
    ∧ valueAt (processSheet true exampleMask1 0 exampleSheet1) 2 2 = valueAt exampleSheet1 2 2
    ∧ (cellAt (processSheet true exampleMask1 0 exampleSheet1) 2 2).style
        = (cellAt exampleSheet1 2 2).style :=
  claim5_frame_only_fills_and_cf true exampleMask1 0 exampleSheet1 2 2
    (by decide) (by decide) (by decide) (by decide)

/-- Claim C8: the two worked examples of the spec produce the stated fills. -/
theorem claim8_worked_examples :
    fillAt (applyMask exampleMask1 0 exampleSheet1) 1 1 = Fill.solid "FFC6EFCE"
    ∧ fillAt (applyMask exampleMask1 0 exampleSheet1) 1 2 = Fill.noFill
    ∧ fillAt (applyMask exampleMask1 0 exampleSheet1) 2 1 = Fill.noFill
    ∧ fillAt (applyMask exampleMask1 0 exampleSheet1) 2 2 = Fill.solid "FFD9D9D9"
    ∧ fillAt (applyMask exampleMask2 1 exampleSheet2) 1 1 = Fill.solid "FFC6EFCE"
    ∧ fillAt (applyMask exampleMask2 1 exampleSheet2) 1 2 = Fill.noFill := by
  decide

/-- Claim C7: missing input spreadsheet, missing mask file, unparsable mask
file, or an out-of-range sheet index each end the run with exit status 2, an
error message, and an untouched file system; a valid run exits with status 0
and its last printed line confirms the file written. -/
theorem claim7_validation_and_exit_status (env : Env) (args : Args) :
    (env.fs.read args.inputXlsx = Option.none →
        runMain env args
          = RunResult.err 2 ("Error: input xlsx not found: " ++ args.inputXlsx) env.fs)
    ∧ (∀ ic, env.fs.read args.inputXlsx = Option.some ic →
        env.fs.read args.maskCsv = Option.none →
        runMain env args
          = RunResult.err 2 ("Error: mask csv not found: " ++ args.maskCsv) env.fs)
    ∧ (∀ ic mc, env.fs.read args.inputXlsx = Option.some ic →
        env.fs.read args.maskCsv = Option.some mc →
        (∀ g, mc ≠ Content.csv g) →
        runMain env args = RunResult.err 2 "Error reading mask CSV" env.fs)
    ∧ (∀ sheets g, env.fs.read args.inputXlsx = Option.some (Content.wb sheets) →
        env.fs.read args.maskCsv = Option.some (Content.csv g) →
        (args.sheetIndex < 0 ∨ (sheets.length : Int) ≤ args.sheetIndex) →
        runMain env args
          = RunResult.err 2 ("Invalid sheet index " ++ toString args.sheetIndex
              ++ "; workbook has " ++ toString sheets.length ++ " sheets") env.fs)
    ∧ (∀ sheets g, env.fs.read args.inputXlsx = Option.some (Content.wb sheets) →
        env.fs.read args.maskCsv = Option.some (Content.csv g) →
        ¬(args.sheetIndex < 0 ∨ (sheets.length : Int) ≤ args.sheetIndex) →
        (runMain env args).exitCode = 0
        ∧ (args.outputXlsx = Option.none →
            (runMain env args).messages.getLast?
              = Option.some ("Overwrote " ++ args.inputXlsx ++ "; backup saved as "
                  ++ backupPathFor env.fs args.inputXlsx env.ts))
        ∧ (∀ out, args.outputXlsx = Option.some out →
            (runMain env args).messages.getLast?
              = Option.some ("Saved updated workbook to: " ++ out))) := by
  refine ⟨?_, ?_, ?_, ?_, ?_⟩
  · intro h
    unfold runMain
    rw [h]
  · intro ic h1 h2
    unfold runMain
    rw [h1, h2]
  · intro ic mc h1 h2 h3
    unfold runMain
    rw [h1, h2]
    cases mc with
    | wb w => cases ic <;> rfl
    | blob n => cases ic <;> rfl
    | csv g => exact absurd rfl (h3 g)
  · intro sheets g h1 h2 h3
    unfold runMain
    rw [h1, h2]
    simp only []
    rw [if_pos h3]
  · intro sheets g h1 h2 h3
    rw [runMain_ok env args sheets g h1 h2 h3]
    refine ⟨?_, ?_, ?_⟩
    · cases args.outputXlsx <;> rfl
    · intro hout
      rw [hout]
      simp [RunResult.messages, List.getLast?_concat]
    · intro out hout
      rw [hout]
      simp [RunResult.messages, List.getLast?_concat]

/-- Sheet used in process-level witnesses. -/
def sheetW : Sheet := ⟨1, 1, [[mkTextCell "no"]], []⟩

/-- Environment used in process-level witnesses: a valid workbook and mask. -/
def envW : Env :=
  ⟨[("a.xlsx", Content.wb [sheetW]), ("m.csv", Content.csv [[PyVal.str "1"]])], true, 0⟩

/-- Overwrite-mode arguments used in process-level witnesses. -/
def argsW : Args := ⟨"a.xlsx", "m.csv", 0, 0, Option.none, true, "FFFFFF00"⟩

/-- Witness for C7: a missing input file errors with status 2 and no writes,
and a valid overwrite-mode run exits 0 confirming the overwrite. -/
theorem claim7_witness :
    runMain ⟨[], true, 0⟩ argsW
        = RunResult.err 2 ("Error: input xlsx not found: " ++ argsW.inputXlsx) []
    ∧ (runMain envW argsW).exitCode = 0
    ∧ (runMain envW argsW).messages.getLast?
        = Option.some ("Overwrote " ++ argsW.inputXlsx ++ "; backup saved as "
            ++ backupPathFor envW.fs argsW.inputXlsx envW.ts) := by
  refine ⟨(claim7_validation_and_exit_status ⟨[], true, 0⟩ argsW).1 rfl, ?_, ?_⟩
  · exact ((claim7_validation_and_exit_status envW argsW).2.2.2.2 [sheetW] [[PyVal.str "1"]]
      rfl rfl (by decide)).1
  · exact (((claim7_validation_and_exit_status envW argsW).2.2.2.2 [sheetW] [[PyVal.str "1"]]
      rfl rfl (by decide)).2.1) rfl

/-- Sheet with a colored fill, used for the C6 counterexample. -/
def sheetX : Sheet := ⟨1, 1, [[⟨PyVal.str "hello", Fill.solid "FF123456", "st"⟩]], []⟩

/-- Environment for the C6 counterexample. -/
def envX : Env := ⟨[("a.xlsx", Content.wb [sheetX]), ("m.csv", Content.csv [[PyVal.str "0"]])], true, 5⟩

/-- Arguments whose explicit output path equals the input path. -/
def argsX : Args := ⟨"a.xlsx", "m.csv", 0, 0, Option.some "a.xlsx", false, "FFFFFF00"⟩

/-- Counterexample to C6 as stated: with the explicit output path equal to the
input path, the run succeeds, the original file's bytes are changed, and no
backup exists anywhere, so the pre-run bytes are not recoverable from disk. -/
theorem claim6_counterexample :
    (runMain envX argsX).exitCode = 0
    ∧ (runMain envX argsX).filesystem.read "a.xlsx" ≠ Option.some (Content.wb [sheetX])
    ∧ (runMain envX argsX).filesystem.read (withSuffix "a.xlsx" ".bak.xlsx") = Option.none
    ∧ (runMain envX argsX).filesystem.read
        (pathStem "a.xlsx" ++ ".bak." ++ toString (5 : Nat) ++ ".xlsx") = Option.none := by
  decide

/-- Claim C6 (amended: the explicit output path must differ from the input
path for the original to stay unchanged): in overwrite mode the run copies
the original content verbatim to the backup path before saving over the
input, never clobbering an existing default backup (a timestamped name is
used instead); with an explicit output path distinct from the input, the
output is written there and the original is untouched. -/
theorem claim6_backup_before_overwrite (env : Env) (args : Args) (sheets : List Sheet)
    (g : List (List PyVal)) (out : String)
    (hin : env.fs.read args.inputXlsx = Option.some (Content.wb sheets))
    (hmask : env.fs.read args.maskCsv = Option.some (Content.csv g))
    (hidx : ¬(args.sheetIndex < 0 ∨ (sheets.length : Int) ≤ args.sheetIndex)) :
    (args.outputXlsx = Option.none →
        (runMain env args).exitCode = 0
        ∧ (runMain env args).filesystem.read (backupPathFor env.fs args.inputXlsx env.ts)
            = Option.some (Content.wb sheets)
        ∧ (runMain env args).filesystem.read args.inputXlsx
            = Option.some (Content.wb
                (updatedWorkbook sheets args.sheetIndex.toNat env.clearOk g args.maskColOffset))
        ∧ (runMain env args).opsOf
            = [FsOp.copyFile args.inputXlsx (backupPathFor env.fs args.inputXlsx env.ts),
               FsOp.saveFile args.inputXlsx]
        ∧ ((env.fs.read (withSuffix args.inputXlsx ".bak.xlsx")).isSome = true →
            backupPathFor env.fs args.inputXlsx env.ts
                = pathStem args.inputXlsx ++ ".bak." ++ toString env.ts ++ ".xlsx"
            ∧ (runMain env args).filesystem.read (withSuffix args.inputXlsx ".bak.xlsx")
                = env.fs.read (withSuffix args.inputXlsx ".bak.xlsx")))
    ∧ (args.outputXlsx = Option.some out → out ≠ args.inputXlsx →
        (runMain env args).exitCode = 0
        ∧ (runMain env args).filesystem.read args.inputXlsx = Option.some (Content.wb sheets)
        ∧ (runMain env args).filesystem.read out
            = Option.some (Content.wb
                (updatedWorkbook sheets args.sheetIndex.toNat env.clearOk g args.maskColOffset))) := by
  constructor
  · intro hout
    rw [runMain_ok env args sheets g hin hmask hidx, hout]
    have hb : backupPathFor env.fs args.inputXlsx env.ts ≠ args.inputXlsx :=
      backupPathFor_ne_input env.fs args.inputXlsx env.ts
    refine ⟨rfl, ?_, ?_, rfl, ?_⟩
    · show ((env.fs.write _ _).write args.inputXlsx _).read _ = _
      rw [FS.read_write_ne _ _ _ _ (fun e => hb e.symm), FS.read_write_self]
    · show ((env.fs.write _ _).write args.inputXlsx _).read _ = _
      rw [FS.read_write_self]
    · intro hex
      have hbkp : backupPathFor env.fs args.inputXlsx env.ts
          = pathStem args.inputXlsx ++ ".bak." ++ toString env.ts ++ ".xlsx" := by
        unfold backupPathFor
        simp only []
        rw [if_pos hex]
      refine ⟨hbkp, ?_⟩
      show ((env.fs.write _ _).write args.inputXlsx _).read _ = _
      rw [FS.read_write_ne _ _ _ _ (fun e => withSuffix_bak_ne args.inputXlsx e.symm),
        hbkp, FS.read_write_ne _ _ _ _ (ts_ne_default args.inputXlsx env.ts)]
  · intro hout hne
    rw [runMain_ok env args sheets g hin hmask hidx, hout]
    refine ⟨rfl, ?_, ?_⟩
    · show (env.fs.write out _).read args.inputXlsx = _
      rw [FS.read_write_ne _ _ _ _ hne, hin]
    · show (env.fs.write out _).read out = _
      rw [FS.read_write_self]

/-- Environment with an existing default backup, to witness the timestamped
backup branch of C6. -/
def envX2 : Env :=
  ⟨[("a.xlsx", Content.wb [sheetW]), ("m.csv", Content.csv [[PyVal.str "1"]]),
    ("a.bak.xlsx", Content.blob 3)], true, 9⟩

/-- Arguments with an explicit output path distinct from the input path. -/
def argsOut : Args := ⟨"a.xlsx", "m.csv", 0, 0, Option.some "b.xlsx", false, "FFFFFF00"⟩

/-- Witness for C6 (amended): a concrete overwrite run keeps the original
bytes at the backup path, a run with an existing default backup preserves it,
and an explicit-output run leaves the input unchanged. -/
theorem claim6_witness :
    ((runMain envW argsW).exitCode = 0
      ∧ (runMain envW argsW).filesystem.read (backupPathFor envW.fs argsW.inputXlsx envW.ts)
          = Option.some (Content.wb [sheetW]))
    ∧ (runMain envX2 argsW).filesystem.read (withSuffix argsW.inputXlsx ".bak.xlsx")
        = envX2.fs.read (withSuffix argsW.inputXlsx ".bak.xlsx")
    ∧ (runMain envW argsOut).filesystem.read argsOut.inputXlsx
        = Option.some (Content.wb [sheetW]) := by
  have hA := (claim6_backup_before_overwrite envW argsW [sheetW] [[PyVal.str "1"]] "b.xlsx"
    rfl rfl (by decide)).1 rfl
  have hB := (claim6_backup_before_overwrite envX2 argsW [sheetW] [[PyVal.str "1"]] "b.xlsx"
    rfl rfl (by decide)).1 rfl
  have hC := (claim6_backup_before_overwrite envW argsOut [sheetW] [[PyVal.str "1"]] "b.xlsx"
    rfl rfl (by decide)).2 rfl (by decide)
  exact ⟨⟨hA.1, hA.2.1⟩, (hB.2.2.2.2 (by decide)).2, hC.2.1⟩

lemma runMain_clearOk_observation (fs : FS) (ts : Nat) (b₁ b₂ : Bool) (args : Args) :
    (runMain ⟨fs, b₁, ts⟩ args).messages = (runMain ⟨fs, b₂, ts⟩ args).messages
    ∧ (runMain ⟨fs, b₁, ts⟩ args).exitCode = (runMain ⟨fs, b₂, ts⟩ args).exitCode := by
  unfold runMain
  cases h1 : FS.read fs args.inputXlsx with
  | none => exact ⟨rfl, rfl⟩
  | some ic =>
    cases h2 : FS.read fs args.maskCsv with
    | none => exact ⟨rfl, rfl⟩
    | some mc =>
      cases mc with
      | wb w => exact ⟨rfl, rfl⟩
      | blob n => exact ⟨rfl, rfl⟩
      | csv g =>
        cases ic with
        | csv x => exact ⟨rfl, rfl⟩
        | blob n => exact ⟨rfl, rfl⟩
        | wb sheets =>
          by_cases h3 : args.sheetIndex < 0 ∨ (sheets.length : Int) ≤ args.sheetIndex
          · simp only []
            rw [if_pos h3, if_pos h3]
            exact ⟨rfl, rfl⟩
          · simp only []
            rw [if_neg h3, if_neg h3]
            cases args.outputXlsx <;> exact ⟨rfl, rfl⟩

/-- Claim C9 (amended: the failure is tolerated silently, no log message is
emitted): a successful conditional-formatting clear leaves the sheet with no
rules; a failed clear leaves the rules alone while the run's printed messages
and exit status are exactly those of a run whose clear succeeded — processing
continues to completion either way. -/
theorem claim9_cf_removal_is_silent_best_effort (g : List (List PyVal)) (off : Int)
    (s : Sheet) (fs : FS) (ts : Nat) (args : Args) :
    (processSheet true g off s).cf = ([] : List String)
    ∧ (processSheet false g off s).cf = s.cf
    ∧ (runMain ⟨fs, false, ts⟩ args).messages = (runMain ⟨fs, true, ts⟩ args).messages
    ∧ (runMain ⟨fs, false, ts⟩ args).exitCode = (runMain ⟨fs, true, ts⟩ args).exitCode :=
  ⟨rfl, rfl, (runMain_clearOk_observation fs ts false true args).1,
    (runMain_clearOk_observation fs ts false true args).2⟩

/-- Sheet carrying a conditional-formatting rule, for the C9 counterexample. -/
def cfSheet : Sheet := ⟨1, 1, [[mkTextCell "yes"]], ["cf-rule-1"]⟩

/-- Environment whose conditional-formatting clear fails. -/
def envC9 : Env := ⟨[("in.xlsx", Content.wb [cfSheet]), ("m.csv", Content.csv [[PyVal.str "1"]])], false, 7⟩

/-- Arguments for the C9 counterexample. -/
def argsC9 : Args := ⟨"in.xlsx", "m.csv", 0, 0, Option.some "out.xlsx", false, "FFFFFF00"⟩

/-- Counterexample to C9 as stated: when the conditional-formatting removal
fails, the run completes printing only the save confirmation — no log message
about the failure is emitted (the rules demonstrably survive in the output). -/
theorem claim9_counterexample :
    (runMain envC9 argsC9).exitCode = 0
    ∧ (runMain envC9 argsC9).messages = ["Saved updated workbook to: out.xlsx"]
    ∧ (runMain envC9 argsC9).filesystem.read "out.xlsx"
        = Option.some (Content.wb
            [⟨1, 1, [[⟨PyVal.str "yes", Fill.solid "FFC6EFCE", ""⟩]], ["cf-rule-1"]⟩]) := by
  decide

/-- Claim C10: the `--fill-color` and `--backup` flags influence nothing: two
runs differing only in those flags are observationally identical, and in
overwrite mode the backup copy is made whatever the backup flag says. -/
theorem claim10_unused_flags_no_influence (env : Env) (args : Args)
    (fc₁ fc₂ : String) (b₁ b₂ : Bool) :
    runMain env { args with fillColor := fc₁, backup := b₁ }
        = runMain env { args with fillColor := fc₂, backup := b₂ }
    ∧ (∀ sheets g, args.outputXlsx = Option.none →
        env.fs.read args.inputXlsx = Option.some (Content.wb sheets) →
        env.fs.read args.maskCsv = Option.some (Content.csv g) →
        ¬(args.sheetIndex < 0 ∨ (sheets.length : Int) ≤ args.sheetIndex) →
        (runMain env { args with backup := b₁ }).opsOf
          = [FsOp.copyFile args.inputXlsx (backupPathFor env.fs args.inputXlsx env.ts),
             FsOp.saveFile args.inputXlsx]) := by
  constructor
  · rfl
  · intro sheets g hout hin hmask hidx
    rw [runMain_ok env { args with backup := b₁ } sheets g hin hmask hidx,
      show ({ args with backup := b₁ } : Args).outputXlsx = Option.none from hout]
    rfl

/-- Witness for C10 at a concrete overwrite-mode run. -/
theorem claim10_witness :
    runMain envW { argsW with fillColor := "FF000001", backup := false }
        = runMain envW { argsW with fillColor := "FF000002", backup := true }
    ∧ (runMain envW { argsW with backup := false }).opsOf
        = [FsOp.copyFile argsW.inputXlsx (backupPathFor envW.fs argsW.inputXlsx envW.ts),
           FsOp.saveFile argsW.inputXlsx] :=
  ⟨(claim10_unused_flags_no_influence envW argsW "FF000001" "FF000002" false true).1,
   (claim10_unused_flags_no_influence envW argsW "FF000001" "FF000002" false true).2
     [sheetW] [[PyVal.str "1"]] rfl rfl rfl (by decide)⟩

end ReviewAlloc
